import Mathlib

/-!
Verification of the policy-gated script execution sandbox of
mcp-server-oci (src/mcp_server_oci_resources/server.py).

The development shallowly embeds the sandbox:

* a subset of the Python statement/expression grammar rich enough for the
  scripts the claims quantify over (statement lists are encoded with
  seq/skip; tuples are encoded as pairs);
* the CodeExecutor AST visitor (scan), translated from visit_Assign,
  visit_Import and visit_ImportFrom plus the generic traversal that
  recurses into compound statements;
* an executable interpreter for the embedded subset, threading an event
  log that records every call into the injected execution context, so
  that observability of script execution is a provable statement;
* OCIResourceQuerier.execute_query, translated branch by branch: parse,
  scan, allow-list check (including the TypeError that the string join
  raises when the scanned set holds the missing-module sentinel None),
  namespace construction, execution, the post-execution has_result check,
  the None-result check, the to_dict hook and json.dumps with default=str.

Python exceptions are modelled by Exc: ordinary Exception values (caught
by the except Exception clause of execute_query) and SystemExit, which is
a BaseException in Python and is NOT caught by except Exception; the
sandbox makes SystemExit reachable because the allow-list contains sys
and the reduced builtins table contains the dynamic-import primitive, so
a script can run sys.exit. The outcome type therefore distinguishes a
returned payload from a propagated SystemExit.
-/

/-- Exceptions of the embedded runtime. An exception carries its message;
systemExit models SystemExit, which derives from BaseException and is not
caught by an except Exception clause. -/
inductive Exc where
  | exception (msg : String)
  | systemExit
deriving DecidableEq, Repr

/-- Runtime values of the embedded subset. objPlain is a domain object
with no structured-export hook; objExport carries the value its to_dict
method returns; rep is the str() coercion of the object, used by
json.dumps through default=str. ctxfun is a callable injected-context
object (itemgetter in the source namespace); sysExitFun is the function
obtained by importing exit from sys, whose call raises SystemExit. -/
inductive Value where
  | none
  | int (n : Int)
  | bool (b : Bool)
  | str (s : String)
  | pair (a b : Value)
  | objPlain (rep : String)
  | objExport (toDict : Value) (rep : String)
  | ctxfun (tag : String)
  | module (name : String)
  | builtin (name : String)
  | builtinsDict
  | sysExitFun
deriving DecidableEq, Repr

/-- Events record the observable calls into the injected execution
context (by the tag of the called context function). -/
abbrev Event := String

/-- Assignment targets: a bare name or a tuple pattern (encoded as a
pair), as in result, x = 1, 2. -/
inductive Target where
  | name (x : String)
  | pair (a b : Target)
deriving DecidableEq, Repr

/-- Expressions of the embedded subset. -/
inductive Expr where
  | lit (v : Value)
  | name (x : String)
  | add (a b : Expr)
  | pair (a b : Expr)
  | call0 (f : Expr)
  | call1 (f : Expr) (a : Expr)
deriving DecidableEq, Repr

/-- Statements of the embedded subset. A Python module body (a list of
statements) is encoded with seq/skip; ifStmt carries both branches. imp
is a plain import statement (a list of module names); impFrom is an
from-import statement whose module is Option String because a relative
one (from . import x) has no module name, mirroring ast.ImportFrom
where node.module is None. -/
inductive Stmt where
  | skip
  | seq (a b : Stmt)
  | assign (t : Target) (e : Expr)
  | annAssign (x : String) (e : Expr)
  | augAssign (x : String) (e : Expr)
  | imp (names : List String)
  | impFrom (module : Option String) (names : List String)
  | ifStmt (c : Expr) (thn els : Stmt)
  | exprStmt (e : Expr)
deriving DecidableEq, Repr

/-! ### The capability scanner (class CodeExecutor) -/

/-- State of the CodeExecutor visitor: the imported_modules set (kept as
an insertion-ordered duplicate-free list) and the has_result flag. -/
structure ScanState where
  imports : List (Option String)
  hasResult : Bool
deriving DecidableEq, Repr

/-- Set insertion for imported_modules (Python set.add). -/
def insertImport (l : List (Option String)) (m : Option String) : List (Option String) :=
  if m ∈ l then l else l ++ [m]

/-- Does a top-level assignment target satisfy the source test
isinstance(target, ast.Name) and target.id == 'result'? A tuple target
is an ast.Tuple node, not a Name, so it does not count. -/
def targetIsResult : Target → Bool
  | Target.name x => x == "result"
  | Target.pair _ _ => false

/-- The CodeExecutor traversal, translated from ast.NodeTransformer
dispatch: Assign, Import and ImportFrom hit the custom visitors (which do
not recurse further, and need not: those nodes contain no nested
statements); every other statement is traversed generically, so both
branches of a conditional and both halves of a sequence are scanned.
AnnAssign and AugAssign have no custom visitor and never set the flag. -/
def scanStmt (st : ScanState) : Stmt → ScanState
  | Stmt.skip => st
  | Stmt.seq a b => scanStmt (scanStmt st a) b
  | Stmt.assign t _ =>
      if targetIsResult t then { st with hasResult := true } else st
  | Stmt.annAssign _ _ => st
  | Stmt.augAssign _ _ => st
  | Stmt.imp names =>
      { st with imports := names.foldl (fun acc n => insertImport acc (some n)) st.imports }
  | Stmt.impFrom m _ => { st with imports := insertImport st.imports m }
  | Stmt.ifStmt _ t e => scanStmt (scanStmt st t) e
  | Stmt.exprStmt _ => st

/-- Scan of a whole script, from the freshly initialised CodeExecutor
(empty import set, has_result False). -/
def scan (prog : Stmt) : ScanState :=
  scanStmt { imports := [], hasResult := false } prog

/-! ### Claim-side scanner specification (for the refinement claim C6) -/

/-- Specification written from the claim's words: the tree contains at
least one assignment statement whose target is the reserved name result,
at any nesting depth, including both branches of a conditional. -/
def containsResultAssign : Stmt → Bool
  | Stmt.assign (Target.name x) _ => x == "result"
  | Stmt.seq a b => containsResultAssign a || containsResultAssign b
  | Stmt.ifStmt _ t e => containsResultAssign t || containsResultAssign e
  | _ => false

/-- Specification written from the claim's words: the module names of
every plain import and import-from statement, at any nesting depth. -/
def importsOf : Stmt → List (Option String)
  | Stmt.imp names => names.map some
  | Stmt.impFrom m _ => [m]
  | Stmt.seq a b => importsOf a ++ importsOf b
  | Stmt.ifStmt _ t e => importsOf t ++ importsOf e
  | _ => []

/-! ### Namespace, querier, allow-list -/

/-- The restricted namespace: an association list from names to values,
with dict-update encoded as shadowing insertion at the front. -/
abbrev NS := List (String × Value)

/-- Lookup in the namespace (Python dict access / dict.get). -/
def NS.get (ns : NS) (x : String) : Option Value :=
  (ns.find? (fun p => p.fst == x)).map Prod.snd

/-- Update of the namespace (Python dict item assignment). -/
def NS.set (ns : NS) (x : String) (v : Value) : NS :=
  (x, v) :: ns

/-- The reduced builtins table assembled in execute_query: the exact name
list of the source. -/
def builtinNames : List String :=
  ["dict", "list", "tuple", "set", "str", "int", "float", "bool",
   "len", "max", "min", "sorted", "filter", "map", "sum", "any", "all",
   "__import__", "hasattr", "getattr", "isinstance", "print"]

/-- The allow-list of importable modules, as written in execute_query. -/
def allowedModules : List String :=
  ["oci", "operator", "json", "datetime", "pytz", "dateutil", "re", "time", "sys", "base64"]

/-- The allow-list lifted to the scanner's Option String elements; the
missing-module sentinel None is never in it. -/
def allowedSome : List (Option String) := allowedModules.map some

/-- The sandbox instance (class OCIResourceQuerier): the configuration
loaded once in the constructor, and the behaviour of calls into the
injected context (what a context function returns, or the message of the
ordinary Exception it raises). The oci SDK raises ordinary exceptions,
so context behaviour cannot raise SystemExit. -/
structure Querier where
  config : Value
  ctxBehavior : String → Option Value → Except String Value

/-- The fresh restricted namespace literal built on every invocation of
execute_query, in source order: the oci module handle, the loaded
config, the result slot pre-seeded to None, itemgetter, and the reduced
builtins table. -/
def buildNS (q : Querier) : NS :=
  [("oci", Value.module "oci"),
   ("config", q.config),
   ("result", Value.none),
   ("itemgetter", Value.ctxfun "itemgetter"),
   ("__builtins__", Value.builtinsDict)]

/-! ### The interpreter (CPython exec over the restricted namespace) -/

/-- Name resolution under exec with the restricted globals: the namespace
first, then the reduced builtins table installed under __builtins__,
else a NameError. -/
def resolveName (ns : NS) (x : String) : Except Exc Value :=
  match NS.get ns x with
  | some v => Except.ok v
  | Option.none =>
      if x ∈ builtinNames then Except.ok (Value.builtin x)
      else Except.error (Exc.exception ("name '" ++ x ++ "' is not defined"))

/-- Python + on the embedded values: int addition and string
concatenation; every other combination raises a TypeError. -/
def addValues : Value → Value → Except Exc Value
  | Value.int a, Value.int b => Except.ok (Value.int (a + b))
  | Value.str a, Value.str b => Except.ok (Value.str (a ++ b))
  | _, _ => Except.error (Exc.exception "unsupported operand type(s) for +")

/-- Python truthiness of the embedded values (for if conditions). -/
def truthy : Value → Bool
  | Value.none => false
  | Value.int n => n != 0
  | Value.bool b => b
  | Value.str s => s != ""
  | _ => true

/-- Call of a value. Calling an injected-context function records an
observable event and consults the sandbox instance's context behaviour;
calling the function imported from sys as exit raises SystemExit, which
except Exception does not catch. Other values are not callable in the
modelled subset. -/
def callValue (q : Querier) (vf : Value) (arg : Option Value) :
    Except Exc (Value × List Event) :=
  match vf with
  | Value.ctxfun t =>
      match q.ctxBehavior t arg with
      | Except.ok v => Except.ok (v, [t])
      | Except.error m => Except.error (Exc.exception m)
  | Value.sysExitFun => Except.error Exc.systemExit
  | _ => Except.error (Exc.exception "object is not callable in the modelled subset")

/-- Expression evaluation, returning the value together with the list of
injected-context calls it performed, in order. -/
def evalExpr (q : Querier) (ns : NS) : Expr → Except Exc (Value × List Event)
  | Expr.lit v => Except.ok (v, [])
  | Expr.name x => do
      let v ← resolveName ns x
      Except.ok (v, [])
  | Expr.add a b => do
      let (va, ea) ← evalExpr q ns a
      let (vb, eb) ← evalExpr q ns b
      let v ← addValues va vb
      Except.ok (v, ea ++ eb)
  | Expr.pair a b => do
      let (va, ea) ← evalExpr q ns a
      let (vb, eb) ← evalExpr q ns b
      Except.ok (Value.pair va vb, ea ++ eb)
  | Expr.call0 f => do
      let (vf, ef) ← evalExpr q ns f
      let (v, ec) ← callValue q vf Option.none
      Except.ok (v, ef ++ ec)
  | Expr.call1 f a => do
      let (vf, ef) ← evalExpr q ns f
      let (va, ea) ← evalExpr q ns a
      let (v, ec) ← callValue q vf (some va)
      Except.ok (v, ef ++ ea ++ ec)

/-- Binding of an assignment target: a name updates the namespace; a
tuple pattern unpacks a pair value and raises a TypeError on anything
else. -/
def bindTarget (ns : NS) : Target → Value → Except Exc NS
  | Target.name x, v => Except.ok (NS.set ns x v)
  | Target.pair t1 t2, Value.pair a b => do
      let ns1 ← bindTarget ns t1 a
      bindTarget ns1 t2 b
  | Target.pair _ _, _ =>
      Except.error (Exc.exception "cannot unpack non-sequence")

/-- The value bound by executing from m import n: importing exit from
sys yields the SystemExit-raising function; any other import-from binds
an opaque module member. -/
def importedMember (m : String) (n : String) : Value :=
  if m == "sys" && n == "exit" then Value.sysExitFun
  else Value.module (m ++ "." ++ n)

/-- Statement execution: the new namespace plus the ordered log of
injected-context calls. A runtime relative import raises ImportError (an
ordinary exception); in the sandbox it is unreachable because the policy
check rejects the sentinel first. -/
def execStmt (q : Querier) : NS → Stmt → Except Exc (NS × List Event)
  | ns, Stmt.skip => Except.ok (ns, [])
  | ns, Stmt.seq a b => do
      let (ns1, e1) ← execStmt q ns a
      let (ns2, e2) ← execStmt q ns1 b
      Except.ok (ns2, e1 ++ e2)
  | ns, Stmt.assign t e => do
      let (v, ev) ← evalExpr q ns e
      let ns1 ← bindTarget ns t v
      Except.ok (ns1, ev)
  | ns, Stmt.annAssign x e => do
      let (v, ev) ← evalExpr q ns e
      Except.ok (NS.set ns x v, ev)
  | ns, Stmt.augAssign x e => do
      let cur ← resolveName ns x
      let (v, ev) ← evalExpr q ns e
      let r ← addValues cur v
      Except.ok (NS.set ns x r, ev)
  | ns, Stmt.imp names =>
      Except.ok (names.foldl (fun acc n => NS.set acc n (Value.module n)) ns, [])
  | ns, Stmt.impFrom (some m) names =>
      Except.ok (names.foldl (fun acc n => NS.set acc n (importedMember m n)) ns, [])
  | _, Stmt.impFrom Option.none _ =>
      Except.error (Exc.exception "attempted relative import with no known parent package")
  | ns, Stmt.ifStmt c t e => do
      let (vc, ec) ← evalExpr q ns c
      if truthy vc then do
        let (ns1, e1) ← execStmt q ns t
        Except.ok (ns1, ec ++ e1)
      else do
        let (ns1, e1) ← execStmt q ns e
        Except.ok (ns1, ec ++ e1)
  | ns, Stmt.exprStmt e => do
      let (_, ev) ← evalExpr q ns e
      Except.ok (ns, ev)

/-! ### JSON serialization (json.dumps with default separators, default=str) -/

/-- Escape of one character inside a JSON string as json.dumps performs
it for the characters our payloads can contain. -/
def escapeChar (c : Char) : String :=
  if c = '"' then "\\\""
  else if c = '\\' then "\\\\"
  else String.singleton c

/-- Escape of a whole JSON string body. -/
def escape (s : String) : String :=
  String.join (s.toList.map escapeChar)

/-- Comma join, as str.join with the separator of the source f-strings. -/
def joinComma : List String → String
  | [] => ""
  | [s] => s
  | s :: rest => s ++ ", " ++ joinComma rest

/-- Rendering of a string as a JSON string literal. -/
def jsonStr (s : String) : String :=
  "\"" ++ escape s ++ "\""

/-- Payload json.dumps produces for a dict with the single key error,
with the source's default separators. -/
def jsonError (msg : String) : String :=
  "\x7b\"error\": " ++ jsonStr msg ++ "\x7d"

/-- Rendering of the reduced builtins table as json.dumps with
default=str would serialize it (each function value str-coerced). -/
def renderBuiltins : String :=
  "\x7b" ++ joinComma (builtinNames.map (fun n => jsonStr n ++ ": " ++ jsonStr ("<built-in " ++ n ++ ">"))) ++ "\x7d"

/-- The serialization json.dumps(v, default=str) of an embedded value:
None, ints, bools and strings serialize structurally; pairs (tuples)
serialize as arrays; any other object is coerced through str by the
default hook, including domain objects that do expose to_dict, because
json.dumps consults default, never to_dict. -/
def jsonOfValue : Value → String
  | Value.none => "null"
  | Value.int n => toString n
  | Value.bool b => if b then "true" else "false"
  | Value.str s => jsonStr s
  | Value.pair a b => "[" ++ jsonOfValue a ++ ", " ++ jsonOfValue b ++ "]"
  | Value.objPlain rep => jsonStr rep
  | Value.objExport _ rep => jsonStr rep
  | Value.ctxfun t => jsonStr ("<function " ++ t ++ ">")
  | Value.module m => jsonStr ("<module '" ++ m ++ "'>")
  | Value.builtin b => jsonStr ("<built-in " ++ b ++ ">")
  | Value.builtinsDict => renderBuiltins
  | Value.sysExitFun => jsonStr "<built-in function exit>"

/-! ### execute_query -/

/-- Result of ast.parse: the syntax tree of a well-formed script, or the
message of the SyntaxError a malformed script raises. The textual Python
front end is abstracted into this parse outcome; claims quantifying over
scripts quantify over parse outcomes. -/
inductive ParseResult where
  | ok (prog : Stmt)
  | syntaxError (msg : String)
deriving DecidableEq, Repr

/-- Outcome of one execute_query invocation: a returned payload string
(together with the injected-context calls the invocation performed, for
observability statements), or a SystemExit propagating past the
except Exception clause to the caller. -/
inductive QueryOutcome where
  | returns (payload : String) (evs : List Event)
  | propagates
deriving DecidableEq, Repr

/-- The set difference imported_modules - allowed_modules of the
source's policy check, as the order-preserving filter of the scanned
duplicate-free import list. -/
def unauthorizedOf (prog : Stmt) : List (Option String) :=
  (scan prog).imports.filter (fun m => !(decide (m ∈ allowedSome)))

/-- Message of the TypeError that str.join raises when the joined set
holds the None sentinel recorded for a relative import. -/
def joinNoneMsg : String :=
  "sequence item: expected str instance, NoneType found"

/-- Comma join over the scanned Option String elements, modelling
', '.join(unauthorized_imports): it raises a TypeError as soon as the
set holds the None sentinel. -/
def joinModules : List (Option String) → Except String String
  | [] => Except.ok ""
  | [some s] => Except.ok s
  | some s :: rest => do
      let r ← joinModules rest
      Except.ok (s ++ ", " ++ r)
  | Option.none :: _ => Except.error joinNoneMsg

/-- The unauthorized-imports diagnostic of the source f-string, built
from the offending names and the allow-list. -/
def unauthorizedMsgOf (names : List String) : String :=
  "Unauthorized imports: " ++ joinComma names ++ ". Only " ++ joinComma allowedModules ++ " are allowed."

/-- Message of the missing-output-binding error payload. -/
def missingResultMsg : String :=
  "Code must set a 'result' variable with the query output"

/-- Message of the null-result error payload. -/
def nullResultMsg : String :=
  "Result cannot be None"

/-- OCIResourceQuerier.execute_query, translated branch by branch from
the source: parse (a SyntaxError is caught and rendered); scan with a
fresh CodeExecutor; the allow-list difference check, whose diagnostic
f-string join raises a TypeError on the relative-import sentinel, caught
by the same except Exception clause; the fresh namespace; exec, whose
ordinary exceptions are caught and rendered while SystemExit propagates;
then the post-execution has_result check, the None-result check, the
to_dict hook and json.dumps with default=str. -/
def execute_query_ev (q : Querier) : ParseResult → QueryOutcome
  | ParseResult.syntaxError m => QueryOutcome.returns (jsonError ("Syntax error: " ++ m)) []
  | ParseResult.ok prog =>
    match unauthorizedOf prog with
    | u :: us =>
      match joinModules (u :: us) with
      | Except.ok s =>
          QueryOutcome.returns
            (jsonError ("Unauthorized imports: " ++ s ++ ". Only " ++ joinComma allowedModules ++ " are allowed.")) []
      | Except.error m => QueryOutcome.returns (jsonError m) []
    | [] =>
      match execStmt q (buildNS q) prog with
      | Except.error (Exc.exception m) => QueryOutcome.returns (jsonError m) []
      | Except.error Exc.systemExit => QueryOutcome.propagates
      | Except.ok (ns, evs) =>
        if (scan prog).hasResult then
          match (NS.get ns "result").getD Value.none with
          | Value.none => QueryOutcome.returns (jsonError nullResultMsg) evs
          | Value.objExport d _ => QueryOutcome.returns (jsonOfValue d) evs
          | v => QueryOutcome.returns (jsonOfValue v) evs
        else QueryOutcome.returns (jsonError missingResultMsg) evs

/-- The payload of an invocation whose outcome is a return; propagation
has no payload. -/
def outcomePayload : QueryOutcome → Option String
  | QueryOutcome.returns p _ => some p
  | QueryOutcome.propagates => Option.none

/-- A sandbox instance whose context functions return 0 without
raising. -/
def defaultQuerier : Querier :=
  { config := Value.objPlain "config", ctxBehavior := fun _ _ => Except.ok (Value.int 0) }

/-- A sandbox instance whose context functions raise an ordinary
Exception with message boom. -/
def raisingQuerier : Querier :=
  { config := Value.objPlain "config", ctxBehavior := fun _ _ => Except.error "boom" }

/-- Sequential service of a list of requests by one sandbox instance,
threading the instance state exactly as the long-lived server object of
the source does (execute_query reads self.config and assigns no instance
attribute, so the state passes through unchanged). -/
def serverRun : Querier → List ParseResult → List QueryOutcome × Querier
  | q, [] => ([], q)
  | q, p :: ps =>
      let out := execute_query_ev q p
      let rest := serverRun q ps
      (out :: rest.fst, rest.snd)

/-! ### Concrete scripts used by the claims -/

/-- Script of scenario A: result = 1 + 1. -/
def progA : Stmt :=
  Stmt.assign (Target.name "result") (Expr.add (Expr.lit (Value.int 1)) (Expr.lit (Value.int 1)))

/-- Script import os followed by from . import x: an offending plain
module reference together with a relative import. -/
def progC1 : Stmt :=
  Stmt.seq (Stmt.imp ["os"]) (Stmt.impFrom Option.none ["x"])

/-- Script import os, socket followed by result = 1: two offending
modules. -/
def progOs : Stmt :=
  Stmt.seq (Stmt.imp ["os", "socket"]) (Stmt.assign (Target.name "result") (Expr.lit (Value.int 1)))

/-- Script itemgetter(): one observable call into the injected context
and no assignment to result. -/
def progCall : Stmt :=
  Stmt.exprStmt (Expr.call0 (Expr.name "itemgetter"))

/-- Script of scenario D: result = None. -/
def progNone : Stmt :=
  Stmt.assign (Target.name "result") (Expr.lit Value.none)

/-- Script result, x = 1, 2: tuple unpacking that binds result at
runtime. -/
def progTuple : Stmt :=
  Stmt.assign (Target.pair (Target.name "result") (Target.name "x"))
    (Expr.pair (Expr.lit (Value.int 1)) (Expr.lit (Value.int 2)))

/-- Script result: int = 1, an annotated assignment. -/
def progAnn : Stmt :=
  Stmt.annAssign "result" (Expr.lit (Value.int 1))

/-- Script from sys import exit followed by exit(): raises SystemExit
during execution. -/
def progSysExit : Stmt :=
  Stmt.seq (Stmt.impFrom (some "sys") ["exit"]) (Stmt.exprStmt (Expr.call0 (Expr.name "exit")))

/-- Script binding result to a domain object with no to_dict hook whose
str() coercion is abc. -/
def progObjPlain : Stmt :=
  Stmt.assign (Target.name "result") (Expr.lit (Value.objPlain "abc"))

/-- Script result = "abc": a genuine string result. -/
def progStr : Stmt :=
  Stmt.assign (Target.name "result") (Expr.lit (Value.str "abc"))

/-- Script binding result to a domain object exposing to_dict. -/
def progExport : Stmt :=
  Stmt.assign (Target.name "result")
    (Expr.lit (Value.objExport (Value.pair (Value.int 1) (Value.str "a")) "O"))

/-! ### Substring occurrence (for stating that a payload does not name a
module) -/

/-- Does the pattern occur at the head of the character list? -/
def beginsWith : List Char → List Char → Bool
  | [], _ => true
  | _ :: _, [] => false
  | a :: as, b :: bs => a == b && beginsWith as bs

/-- Does the pattern occur anywhere in the character list? -/
def occursIn (p : List Char) : List Char → Bool
  | [] => beginsWith p []
  | c :: cs => beginsWith p (c :: cs) || occursIn p cs

/-! ### Scanner lemmas -/

lemma mem_insertImport (l : List (Option String)) (x m : Option String) :
    m ∈ insertImport l x ↔ m ∈ l ∨ m = x := by
  unfold insertImport
  split
  · rename_i h
    constructor
    · exact fun hm => Or.inl hm
    · rintro (hm | rfl)
      · exact hm
      · exact h
  · simp [List.mem_append]

lemma mem_foldl_insertImport (names : List String) (l : List (Option String)) (m : Option String) :
    m ∈ names.foldl (fun acc n => insertImport acc (some n)) l ↔ m ∈ l ∨ m ∈ names.map some := by
  induction names generalizing l with
  | nil => simp
  | cons n rest ih =>
      simp only [List.foldl_cons, ih, mem_insertImport, List.map_cons, List.mem_cons]
      tauto

lemma containsResultAssign_assign (t : Target) (e : Expr) :
    containsResultAssign (Stmt.assign t e) = targetIsResult t := by
  cases t <;> rfl

lemma scanStmt_hasResult (s : Stmt) :
    ∀ st : ScanState, (scanStmt st s).hasResult = (st.hasResult || containsResultAssign s) := by
  induction s with
  | skip => intro st; simp [scanStmt, containsResultAssign]
  | seq a b iha ihb =>
      intro st
      simp [scanStmt, ihb, iha, containsResultAssign, Bool.or_assoc]
  | assign t e =>
      intro st
      simp only [scanStmt, containsResultAssign_assign]
      cases h : targetIsResult t <;> simp [h]
  | annAssign x e => intro st; simp [scanStmt, containsResultAssign]
  | augAssign x e => intro st; simp [scanStmt, containsResultAssign]
  | imp names => intro st; simp [scanStmt, containsResultAssign]
  | impFrom m names => intro st; simp [scanStmt, containsResultAssign]
  | ifStmt c t e iht ihe =>
      intro st
      simp [scanStmt, ihe, iht, containsResultAssign, Bool.or_assoc]
  | exprStmt e => intro st; simp [scanStmt, containsResultAssign]

lemma scanStmt_imports_mem (s : Stmt) :
    ∀ (st : ScanState) (m : Option String),
      m ∈ (scanStmt st s).imports ↔ m ∈ st.imports ∨ m ∈ importsOf s := by
  induction s with
  | skip => intro st m; simp [scanStmt, importsOf]
  | seq a b iha ihb =>
      intro st m
      simp only [scanStmt, ihb, iha, importsOf, List.mem_append]
      tauto
  | assign t e =>
      intro st m
      simp only [scanStmt, importsOf]
      split <;> simp
  | annAssign x e => intro st m; simp [scanStmt, importsOf]
  | augAssign x e => intro st m; simp [scanStmt, importsOf]
  | imp names =>
      intro st m
      simp [scanStmt, importsOf, mem_foldl_insertImport]
  | impFrom mo names =>
      intro st m
      simp [scanStmt, importsOf, mem_insertImport]
  | ifStmt c t e iht ihe =>
      intro st m
      simp only [scanStmt, ihe, iht, importsOf, List.mem_append]
      tauto
  | exprStmt e => intro st m; simp [scanStmt, importsOf]

/-! ### Unfolding lemmas for execute_query -/

lemma execute_query_unauthorized (q : Querier) (prog : Stmt) (u : Option String)
    (us : List (Option String)) (hU : unauthorizedOf prog = u :: us) :
    execute_query_ev q (ParseResult.ok prog) =
      (match joinModules (u :: us) with
       | Except.ok s =>
           QueryOutcome.returns
             (jsonError ("Unauthorized imports: " ++ s ++ ". Only " ++ joinComma allowedModules ++ " are allowed.")) []
       | Except.error m => QueryOutcome.returns (jsonError m) []) := by
  unfold execute_query_ev
  dsimp only
  rw [hU]

lemma execute_query_exec_error (q : Querier) (prog : Stmt) (m : String)
    (hU : unauthorizedOf prog = [])
    (hE : execStmt q (buildNS q) prog = Except.error (Exc.exception m)) :
    execute_query_ev q (ParseResult.ok prog) = QueryOutcome.returns (jsonError m) [] := by
  unfold execute_query_ev
  dsimp only
  rw [hU, hE]

lemma execute_query_exec_ok (q : Querier) (prog : Stmt) (ns : NS) (evs : List Event)
    (hU : unauthorizedOf prog = [])
    (hE : execStmt q (buildNS q) prog = Except.ok (ns, evs)) :
    execute_query_ev q (ParseResult.ok prog) =
      (if (scan prog).hasResult then
        match (NS.get ns "result").getD Value.none with
        | Value.none => QueryOutcome.returns (jsonError nullResultMsg) evs
        | Value.objExport d _ => QueryOutcome.returns (jsonOfValue d) evs
        | v => QueryOutcome.returns (jsonOfValue v) evs
      else QueryOutcome.returns (jsonError missingResultMsg) evs) := by
  unfold execute_query_ev
  dsimp only
  rw [hU, hE]

/-! ### List helper lemmas -/

lemma eq_filterMap_map_some (l : List (Option String)) (h : Option.none ∉ l) :
    l = (l.filterMap id).map some := by
  induction l with
  | nil => rfl
  | cons a as ih =>
      cases a with
      | none => exact absurd (List.mem_cons_self _ _) h
      | some s =>
          simp only [List.filterMap_cons, id_eq, List.map_cons]
          have := ih (fun hm => h (List.mem_cons_of_mem _ hm))
          exact congrArg (some s :: ·) this

lemma joinModules_map_some (names : List String) :
    joinModules (names.map some) = Except.ok (joinComma names) := by
  induction names with
  | nil => rfl
  | cons n rest ih =>
      cases rest with
      | nil => rfl
      | cons m rest2 =>
          simp only [List.map_cons] at ih ⊢
          simp only [joinModules, ih, joinComma]
          rfl

/-! ### Claim theorems -/

/-- C6: the scanner's output-binding flag is true iff the tree contains
at least one assignment statement whose target is the bare name result,
at any nesting depth the traversal visits, including both branches of a
conditional, irrespective of runtime reachability; and the scanned
module set holds exactly the module names of every plain import and
every from-import statement at any nesting depth. -/
theorem c6_scanner_iff (prog : Stmt) :
    ((scan prog).hasResult = true ↔ containsResultAssign prog = true) ∧
    (∀ m : Option String, m ∈ (scan prog).imports ↔ m ∈ importsOf prog) := by
  constructor
  · rw [scan, scanStmt_hasResult]
    simp
  · intro m
    rw [scan, scanStmt_imports_mem]
    simp

/-- C8: an import-from statement with no module name records the None
sentinel in the scanned import set instead of crashing the scanner, and
execute_query still answers such a script with a structured error
payload (the rendered TypeError of the diagnostic string join) without
executing any statement. -/
theorem c8_relative_import_sentinel :
    (∀ (st : ScanState) (m : Option String) (names : List String),
        m ∈ (scanStmt st (Stmt.impFrom m names)).imports) ∧
    (∀ q : Querier,
        execute_query_ev q (ParseResult.ok (Stmt.impFrom Option.none ["x"])) =
          QueryOutcome.returns (jsonError joinNoneMsg) []) := by
  constructor
  · intro st m names
    simp [scanStmt, mem_insertImport]
  · intro q
    rfl

/-- C9: every invocation builds the restricted namespace afresh as the
same five-entry literal referencing the construction-time context (the
oci module handle, the loaded config, itemgetter, the reduced builtins
table) with the result slot pre-seeded to None, and a sandbox instance
serving a request sequence leaves its construction-time state unchanged
and answers every request exactly as it would answer it in isolation (no
namespace or state is retained between invocations). -/
theorem c9_fresh_namespace_stateless :
    (∀ q : Querier,
        buildNS q =
          [("oci", Value.module "oci"), ("config", q.config), ("result", Value.none),
           ("itemgetter", Value.ctxfun "itemgetter"), ("__builtins__", Value.builtinsDict)]) ∧
    (∀ q : Querier, NS.get (buildNS q) "result" = some Value.none) ∧
    (∀ (q : Querier) (ps : List ParseResult),
        serverRun q ps = (ps.map (fun p => execute_query_ev q p), q)) := by
  refine ⟨fun q => rfl, fun q => rfl, fun q ps => ?_⟩
  induction ps with
  | nil => rfl
  | cons p rest ih => simp [serverRun, ih]

/-- C3 (code bug): the script from sys import exit; exit() passes the
allow-list check (sys is allow-listed and the reduced builtins table
keeps the dynamic-import primitive), and its execution raises
SystemExit, which derives from BaseException, so the except Exception
clause of execute_query does not catch it: the exception propagates to
the caller instead of being converted to an error payload, contradicting
the claim that every runtime fault is caught at the boundary. -/
theorem c3_systemexit_escapes :
    execute_query_ev defaultQuerier (ParseResult.ok progSysExit) = QueryOutcome.propagates := by
  rfl

/-- C4 (counterexample): for the script result = 1 + 1 the returned
payload is the bare serialization 2, not the wrapped object that the
claim requires. -/
theorem c4_counterexample :
    execute_query_ev defaultQuerier (ParseResult.ok progA) = QueryOutcome.returns "2" [] ∧
    "2" ≠ "\x7b\"result\": 2\x7d" := by
  exact ⟨rfl, by decide⟩

/-- C4 (amended): on success execute_query returns the JSON
serialization of the result value itself, not wrapped in a result
object — for the script result = 1 + 1 the payload is exactly 2 — and
every returned payload is either an error-object rendering or the
serialization of a value. -/
theorem c4_amended :
    execute_query_ev defaultQuerier (ParseResult.ok progA) = QueryOutcome.returns "2" [] ∧
    (∀ (q : Querier) (p : ParseResult) (s : String) (evs : List Event),
        execute_query_ev q p = QueryOutcome.returns s evs →
        (∃ m, s = jsonError m) ∨ (∃ v : Value, s = jsonOfValue v)) := by
  refine ⟨rfl, ?_⟩
  intro q p s evs h
  cases p with
  | syntaxError m =>
      simp only [execute_query_ev] at h
      injection h with h1 h2
      exact Or.inl ⟨_, h1.symm⟩
  | ok prog =>
      simp only [execute_query_ev] at h
      split at h
      · split at h
        · injection h with h1 _; exact Or.inl ⟨_, h1.symm⟩
        · injection h with h1 _; exact Or.inl ⟨_, h1.symm⟩
      · split at h
        · injection h with h1 _; exact Or.inl ⟨_, h1.symm⟩
        · simp at h
        · split at h
          · split at h
            · injection h with h1 _; exact Or.inl ⟨_, h1.symm⟩
            · injection h with h1 _; exact Or.inr ⟨_, h1.symm⟩
            · injection h with h1 _; exact Or.inr ⟨_, h1.symm⟩
          · injection h with h1 _; exact Or.inl ⟨_, h1.symm⟩

/-- C4 (witness): the payload of the scenario-A invocation has one of
the two payload shapes. -/
theorem c4_witness :
    (∃ m, "2" = jsonError m) ∨ (∃ v : Value, "2" = jsonOfValue v) :=
  c4_amended.2 defaultQuerier (ParseResult.ok progA) "2" [] rfl

/-- C1 (counterexample): the script import os; from . import x
references os, a module outside the allow-list, yet the returned payload
is the rendered TypeError of the diagnostic string join (the scanned set
holds the None sentinel), and it does not name the offending module os
at all, let alone the allow-list. No statement is executed. -/
theorem c1_counterexample :
    execute_query_ev defaultQuerier (ParseResult.ok progC1) =
      QueryOutcome.returns (jsonError joinNoneMsg) [] ∧
    occursIn "os".toList (jsonError joinNoneMsg).toList = false := by
  exact ⟨rfl, by decide⟩

/-- C1 (amended): for every script whose scanned import set holds a name
outside the allow-list and holds no missing-module sentinel, the
returned payload is the unauthorized-imports diagnostic built from the
complete list of offending names together with the allow-list, every
offending module appears in that list, and no statement of the script is
executed (the event log is empty). -/
theorem c1_amended (q : Querier) (prog : Stmt) (u : Option String) (us : List (Option String))
    (hU : unauthorizedOf prog = u :: us)
    (hN : Option.none ∉ (scan prog).imports) :
    ∃ names : List String,
      u :: us = names.map some ∧
      execute_query_ev q (ParseResult.ok prog) =
        QueryOutcome.returns (jsonError (unauthorizedMsgOf names)) [] ∧
      (∀ m : String, some m ∈ (scan prog).imports → m ∉ allowedModules → some m ∈ u :: us) := by
  have hsub : ∀ x, x ∈ u :: us → x ∈ (scan prog).imports := by
    intro x hx
    rw [← hU] at hx
    unfold unauthorizedOf at hx
    exact List.mem_of_mem_filter hx
  have hnone : Option.none ∉ u :: us := fun hx => hN (hsub _ hx)
  refine ⟨(u :: us).filterMap id, eq_filterMap_map_some _ hnone, ?_, ?_⟩
  · have hjoin : joinModules (u :: us) = Except.ok (joinComma ((u :: us).filterMap id)) := by
      conv_lhs => rw [eq_filterMap_map_some _ hnone]
      exact joinModules_map_some _
    rw [execute_query_unauthorized q prog u us hU, hjoin]
    rfl
  · intro m hm hnal
    rw [← hU]
    unfold unauthorizedOf
    refine List.mem_filter.mpr ⟨hm, ?_⟩
    simp only [Bool.not_eq_true', decide_eq_false_iff_not]
    intro hmem
    rcases List.mem_map.mp hmem with ⟨a, ha, hae⟩
    cases hae
    exact hnal ha

/-- C1 (witness): the script import os, socket; result = 1 yields the
diagnostic naming both offending modules and the allow-list. -/
theorem c1_witness :
    unauthorizedOf progOs = [some "os", some "socket"] ∧
    Option.none ∉ (scan progOs).imports ∧
    (∃ names : List String,
      [some "os", some "socket"] = names.map some ∧
      execute_query_ev defaultQuerier (ParseResult.ok progOs) =
        QueryOutcome.returns (jsonError (unauthorizedMsgOf names)) [] ∧
      (∀ m : String, some m ∈ (scan progOs).imports → m ∉ allowedModules →
        some m ∈ [some "os", some "socket"])) :=
  ⟨rfl, by decide, c1_amended defaultQuerier progOs (some "os") [some "socket"] rfl (by decide)⟩

/-- C2 (counterexample): the script itemgetter() contains no assignment
to result; execute_query does return the missing-binding payload, but
only after executing the script — the call into the injected context is
observable in the event log, refuting the claim that no statement is
executed. -/
theorem c2_counterexample :
    execute_query_ev defaultQuerier (ParseResult.ok progCall) =
      QueryOutcome.returns (jsonError missingResultMsg) ["itemgetter"] ∧
    ["itemgetter"] ≠ ([] : List Event) := by
  exact ⟨rfl, by decide⟩

/-- C2 (amended): a syntactically valid script with no assignment to
result is answered with the missing-binding payload only after the
script has been executed (its injected-context calls are observable),
and only when that execution completes without fault; a faulting script
is answered with the runtime error payload instead. -/
theorem c2_amended :
    (∀ (q : Querier) (prog : Stmt) (ns : NS) (evs : List Event),
        unauthorizedOf prog = [] → (scan prog).hasResult = false →
        execStmt q (buildNS q) prog = Except.ok (ns, evs) →
        execute_query_ev q (ParseResult.ok prog) =
          QueryOutcome.returns (jsonError missingResultMsg) evs) ∧
    (∀ (q : Querier) (prog : Stmt) (m : String),
        unauthorizedOf prog = [] →
        execStmt q (buildNS q) prog = Except.error (Exc.exception m) →
        execute_query_ev q (ParseResult.ok prog) = QueryOutcome.returns (jsonError m) []) := by
  constructor
  · intro q prog ns evs hU hR hE
    rw [execute_query_exec_ok q prog ns evs hU hE]
    simp [hR]
  · intro q prog m hU hE
    exact execute_query_exec_error q prog m hU hE

/-- C2 (witness): the missing-binding payload arrives with a non-empty
event log for itemgetter(), and the same script under a raising context
yields the runtime error payload. -/
theorem c2_witness :
    execute_query_ev defaultQuerier (ParseResult.ok progCall) =
      QueryOutcome.returns (jsonError missingResultMsg) ["itemgetter"] ∧
    execute_query_ev raisingQuerier (ParseResult.ok progCall) =
      QueryOutcome.returns (jsonError "boom") [] :=
  ⟨c2_amended.1 defaultQuerier progCall (buildNS defaultQuerier) ["itemgetter"] rfl rfl rfl,
   c2_amended.2 raisingQuerier progCall "boom" rfl rfl⟩

/-- C5: a script that passes both policy checks (authorized imports and
a syntactic assignment to result) and executes without fault, leaving
the output slot bound to None, is answered with the null-result payload,
which differs from the missing-binding payload. -/
theorem c5_null_result (q : Querier) (prog : Stmt) (ns : NS) (evs : List Event)
    (hU : unauthorizedOf prog = [])
    (hR : (scan prog).hasResult = true)
    (hE : execStmt q (buildNS q) prog = Except.ok (ns, evs))
    (hv : (NS.get ns "result").getD Value.none = Value.none) :
    execute_query_ev q (ParseResult.ok prog) =
      QueryOutcome.returns (jsonError nullResultMsg) evs ∧
    jsonError nullResultMsg ≠ jsonError missingResultMsg := by
  constructor
  · rw [execute_query_exec_ok q prog ns evs hU hE]
    simp [hR, hv]
  · decide

/-- C5 (witness): the scenario-D script result = None yields the
null-result payload. -/
theorem c5_witness :
    execute_query_ev defaultQuerier (ParseResult.ok progNone) =
      QueryOutcome.returns (jsonError nullResultMsg) [] ∧
    jsonError nullResultMsg ≠ jsonError missingResultMsg :=
  c5_null_result defaultQuerier progNone
    (NS.set (buildNS defaultQuerier) "result" Value.none) [] rfl rfl rfl rfl

/-- C7 (counterexample): a domain object with no structured-export hook
whose str() coercion is abc serializes to exactly the same payload as
the genuine string result "abc": the fallback string coercion carries no
tag from which a caller could know a lossy conversion occurred. -/
theorem c7_counterexample :
    execute_query_ev defaultQuerier (ParseResult.ok progObjPlain) =
      QueryOutcome.returns (jsonStr "abc") [] ∧
    execute_query_ev defaultQuerier (ParseResult.ok progStr) =
      QueryOutcome.returns (jsonStr "abc") [] := by
  exact ⟨rfl, rfl⟩

/-- C7 (amended): when the result value exposes the to_dict hook the
serializer invokes it and serializes the exported structure; a primitive
result serializes directly; any other object falls back to an untagged
string coercion, indistinguishable from serializing the equal genuine
string. -/
theorem c7_amended (q : Querier) (prog : Stmt) (ns : NS) (evs : List Event)
    (hU : unauthorizedOf prog = [])
    (hR : (scan prog).hasResult = true)
    (hE : execStmt q (buildNS q) prog = Except.ok (ns, evs)) :
    (∀ (d : Value) (rep : String), NS.get ns "result" = some (Value.objExport d rep) →
        execute_query_ev q (ParseResult.ok prog) = QueryOutcome.returns (jsonOfValue d) evs) ∧
    (∀ n : Int, NS.get ns "result" = some (Value.int n) →
        execute_query_ev q (ParseResult.ok prog) =
          QueryOutcome.returns (jsonOfValue (Value.int n)) evs) ∧
    (∀ rep : String, NS.get ns "result" = some (Value.objPlain rep) →
        execute_query_ev q (ParseResult.ok prog) = QueryOutcome.returns (jsonStr rep) evs ∧
        jsonStr rep = jsonOfValue (Value.str rep)) := by
  refine ⟨?_, ?_, ?_⟩
  · intro d rep hv
    rw [execute_query_exec_ok q prog ns evs hU hE]
    simp [hR, hv]
  · intro n hv
    rw [execute_query_exec_ok q prog ns evs hU hE]
    simp [hR, hv, jsonOfValue]
  · intro rep hv
    constructor
    · rw [execute_query_exec_ok q prog ns evs hU hE]
      simp [hR, hv, jsonOfValue]
    · rfl

/-- C7 (witness): a result object exporting the pair (1, "a") through
to_dict serializes to the export's serialization. -/
theorem c7_witness :
    execute_query_ev defaultQuerier (ParseResult.ok progExport) =
      QueryOutcome.returns (jsonOfValue (Value.pair (Value.int 1) (Value.str "a"))) [] :=
  (c7_amended defaultQuerier progExport
      (NS.set (buildNS defaultQuerier) "result"
        (Value.objExport (Value.pair (Value.int 1) (Value.str "a")) "O")) [] rfl rfl rfl).1
    (Value.pair (Value.int 1) (Value.str "a")) "O" rfl

/-- C10: only a plain assignment statement with the bare-name target
result sets the scanner's flag — annotated assignments, augmented
assignments and tuple-unpacking targets leave it unchanged — so a script
that binds result at runtime to a non-null value through those forms
alone is still answered with the missing-binding payload. -/
theorem c10_nonplain_bindings_missing :
    (∀ (st : ScanState) (x : String) (e : Expr),
        (scanStmt st (Stmt.annAssign x e)).hasResult = st.hasResult) ∧
    (∀ (st : ScanState) (x : String) (e : Expr),
        (scanStmt st (Stmt.augAssign x e)).hasResult = st.hasResult) ∧
    (∀ (st : ScanState) (t1 t2 : Target) (e : Expr),
        (scanStmt st (Stmt.assign (Target.pair t1 t2) e)).hasResult = st.hasResult) ∧
    (∀ (q : Querier) (prog : Stmt) (ns : NS) (evs : List Event) (v : Value),
        unauthorizedOf prog = [] → (scan prog).hasResult = false →
        execStmt q (buildNS q) prog = Except.ok (ns, evs) →
        NS.get ns "result" = some v → v ≠ Value.none →
        execute_query_ev q (ParseResult.ok prog) =
          QueryOutcome.returns (jsonError missingResultMsg) evs) := by
  refine ⟨fun st x e => rfl, fun st x e => rfl, fun st t1 t2 e => rfl, ?_⟩
  intro q prog ns evs v hU hR hE hv hne
  rw [execute_query_exec_ok q prog ns evs hU hE]
  simp [hR]

/-- C10 (witness): result, x = 1, 2 and result: int = 1 both bind result
to 1 at runtime yet are answered with the missing-binding payload. -/
theorem c10_witness :
    execute_query_ev defaultQuerier (ParseResult.ok progTuple) =
      QueryOutcome.returns (jsonError missingResultMsg) [] ∧
    execute_query_ev defaultQuerier (ParseResult.ok progAnn) =
      QueryOutcome.returns (jsonError missingResultMsg) [] :=
  ⟨c10_nonplain_bindings_missing.2.2.2 defaultQuerier progTuple
      (("x", Value.int 2) :: ("result", Value.int 1) :: buildNS defaultQuerier) []
      (Value.int 1) rfl rfl rfl rfl (by decide),
   c10_nonplain_bindings_missing.2.2.2 defaultQuerier progAnn
      (("result", Value.int 1) :: buildNS defaultQuerier) []
      (Value.int 1) rfl rfl rfl rfl (by decide)⟩
